import Mathlib

/-!
Shallow embedding of the CRE-Tycoon simulation engine.

Real-number arithmetic of the JavaScript source is modelled over `ℚ`
(exact arithmetic); machine floats' rounding is not modelled.  Each
definition mirrors one function of the source:
  * `clamp`                       — src utils.js (part_000)
  * `computeEffectiveRentFactor`, `computeNOI`, `valueFromNOI`,
    `annualDebtService`, `dscr`   — src property.js (part_001)
  * `applyEventToMarket`, `applyEventToNeighborhood`,
    `updateNeighborhoodYear`, `updateMarketYear` — src market.js (part_001)
  * `npv`, `solveIRR`             — src deal-judge (part_000)
  * the game loop (leases, builds, maturities, cash flow, listings,
    `nextYear`)                   — src tycoon main (part_004)
The seeded RNG (`mulberry32`/`seedFromString`, engine/rng.js) is not in
the source tree; its stream is modelled from the spec contract (§4.1):
a deterministic stream of values in [0,1) derived from an integer seed.
-/

namespace CRE

/-- JS `clamp(x, lo, hi) = Math.max(lo, Math.min(hi, x))`. -/
def clamp (x lo hi : ℚ) : ℚ := max lo (min hi x)

/-- JS `Math.round` for positive-scale inputs: `⌊x + 1/2⌋`. -/
def jsRound (x : ℚ) : ℤ := Int.floor (x + 1/2)

/-- RNG stream: a deterministic sequence of draws with a cursor.
`stream` abstracts the generator output; `pos` is the cursor.  Modelled
from the spec: the concrete generator (mulberry32) lives in engine/rng.js
which is absent from the source tree; only its determinism contract is
used. -/
structure Rng where
  stream : ℕ → ℚ
  pos : ℕ

/-- Draw the next value of the stream and advance the cursor. -/
def Rng.next (g : Rng) : ℚ × Rng := (g.stream g.pos, ⟨g.stream, g.pos + 1⟩)

/-- Modelled from the spec: `seedFromString`/`mulberry32` (engine/rng.js,
missing from src) produce a deterministic stream of values in [0,1) from
an integer seed; modelled here as a multiplicative hash into [0,1). -/
def seedStream (seed : ℕ) : ℕ → ℚ :=
  fun n => (((seed + 1) * (n + 1) * 2654435761) % 4294967296 : ℕ) / (4294967296 : ℚ)

/-- `makeRng` of the source, over the spec-modelled stream. -/
def makeRng (seed : ℕ) : Rng := ⟨seedStream seed, 0⟩

/-! ### Financial primitives (part_001, property.js) -/

/-- `computeEffectiveRentFactor(vacancy)`: concessions expand when
vacancy is high. -/
def computeEffectiveRentFactor (vacancy : ℚ) : ℚ :=
  let concession := clamp ((vacancy - 0.05) * 0.5) 0 0.08
  1 - concession

/-- `computeNOI({baseNOI, rentIndex, vacancy, expenseRatio})`. -/
def computeNOI (baseNOI rentIndex vacancy expenseRatio : ℚ) : ℚ :=
  let eff := computeEffectiveRentFactor vacancy
  let revenueFactor := rentIndex * (1 - vacancy) * eff
  let egi := baseNOI / (1 - expenseRatio)
  let newEgi := egi * revenueFactor
  let opex := newEgi * expenseRatio
  max 0 (newEgi - opex)

/-- `valueFromNOI(noi, capRate)`. -/
def valueFromNOI (noi capRate : ℚ) : ℚ :=
  if capRate > 0 then noi / capRate else 0

/-- Result triple of `annualDebtService`. -/
structure DebtService where
  payment : ℚ
  interest : ℚ
  principal : ℚ
  deriving Repr, DecidableEq

/-- `annualDebtService({balance, rate, amortYears, interestOnly})`. -/
def annualDebtService (balance rate : ℚ) (amortYears : ℕ) (interestOnly : Bool) :
    DebtService :=
  if balance ≤ 0 then ⟨0, 0, 0⟩
  else
    let n : ℕ := max 1 amortYears
    if interestOnly then
      ⟨balance * rate, balance * rate, 0⟩
    else
      let pmt := (balance * rate) / (1 - (1 + rate) ^ (-(n : ℤ)))
      let interest := balance * rate
      ⟨pmt, interest, max 0 (pmt - interest)⟩

/-- `dscr(noi, debtService)`; `none` models the Infinity sentinel. -/
def dscr (noi debtService : ℚ) : Option ℚ :=
  if debtService ≤ 0 then none else some (noi / debtService)

/-! ### Market / neighborhood evolution (part_001, market.js) -/

structure Market where
  baseRate : ℚ
  spread : ℚ
  liquidity : ℚ
  deriving Repr, DecidableEq

/-- Optional additive deltas of a market event (`event.effects`). -/
structure EventEffects where
  baseRateDelta : Option ℚ := none
  spreadDelta : Option ℚ := none
  liquidityDelta : Option ℚ := none
  demandDelta : Option ℚ := none
  rentIndexDelta : Option ℚ := none
  vacancyDelta : Option ℚ := none
  capRateDelta : Option ℚ := none
  deriving Repr, DecidableEq

structure MktEvent where
  scope : String
  targetNeighborhood : String
  effects : EventEffects
  deriving Repr, DecidableEq

structure Neighborhood where
  id : String
  name : String
  zoning : List String
  baseDemand : ℚ
  scarcity : ℚ
  demand : ℚ
  rentIndex : ℚ
  vacancy : ℚ
  capRate : ℚ
  deriving Repr, DecidableEq

/-- `applyEventToMarket(market, event)`: add present deltas, then clamp
all three fields. -/
def applyEventToMarket (m : Market) (e : EventEffects) : Market :=
  let br := match e.baseRateDelta with | some d => m.baseRate + d | none => m.baseRate
  let sp := match e.spreadDelta with | some d => m.spread + d | none => m.spread
  let li := match e.liquidityDelta with | some d => m.liquidity + d | none => m.liquidity
  { baseRate := clamp br 0 0.12
    spread := clamp sp 0 0.08
    liquidity := clamp li 0.2 1 }

/-- `applyEventToNeighborhood(n, event)`: each field is clamped only when
its delta is present; absent deltas leave the field untouched. -/
def applyEventToNeighborhood (n : Neighborhood) (e : EventEffects) : Neighborhood :=
  { n with
    demand := match e.demandDelta with
      | some d => clamp (n.demand + d) 0.2 1.2 | none => n.demand
    rentIndex := match e.rentIndexDelta with
      | some d => clamp (n.rentIndex + d) 0.6 1.8 | none => n.rentIndex
    vacancy := match e.vacancyDelta with
      | some d => clamp (n.vacancy + d) 0.01 0.35 | none => n.vacancy
    capRate := match e.capRateDelta with
      | some d => clamp (n.capRate + d) 0.03 0.12 | none => n.capRate }

/-- `updateNeighborhoodYear(n, market, rng)`: the four RNG draws are the
explicit arguments `u1..u4`, in the order the source consumes them.
Returns the updated neighborhood and the year's `rentGrowth`. -/
def updateNeighborhoodYear (n : Neighborhood) (m : Market) (u1 u2 u3 u4 : ℚ) :
    Neighborhood × ℚ :=
  let noise := (u1 - 0.5) * 0.04
  let demand := clamp (n.demand + (n.baseDemand - n.demand) * 0.25 + noise) 0.2 1.2
  let vacShock := (u2 - 0.5) * 0.02
  let targetVac := clamp (0.14 - (demand - 0.6) * 0.12) 0.03 0.28
  let vacancy := clamp (n.vacancy + (targetVac - n.vacancy) * 0.35 + vacShock) 0.01 0.35
  let rgBase := (0.02 : ℚ)
  let rgTightBonus := clamp ((0.10 - vacancy) * 0.25) (-0.03) 0.04
  let rgNoise := (u3 - 0.5) * 0.02
  let rentGrowth := clamp (rgBase + rgTightBonus + rgNoise) (-0.06) 0.10
  let rentIndex := clamp (n.rentIndex * (1 + rentGrowth)) 0.6 1.8
  let rateComponent := m.baseRate * 0.55 + m.spread * 0.65
  let liqComponent := (m.liquidity - 0.6) * 0.02
  let targetCap := clamp (n.capRate * 0.5 + (0.045 + rateComponent - liqComponent) * 0.5) 0.03 0.12
  let capNoise := (u4 - 0.5) * 0.004
  let capRate := clamp (n.capRate + (targetCap - n.capRate) * 0.35 + capNoise) 0.03 0.12
  ({ n with demand := demand, vacancy := vacancy, rentIndex := rentIndex, capRate := capRate },
   rentGrowth)

/-- `updateMarketYear(market, rng)`: the three RNG draws are `u1..u3` in
source order. -/
def updateMarketYear (m : Market) (u1 u2 u3 : ℚ) : Market :=
  let drift := (0.001 : ℚ)
  let shock := (u1 - 0.5) * 0.01
  let baseRate := clamp (m.baseRate + drift + shock) 0 0.12
  let spreadShock := (u2 - 0.5) * 0.004
  let spread := clamp (m.spread + spreadShock - (m.liquidity - 0.6) * 0.003) 0 0.08
  let liqShock := (u3 - 0.5) * 0.08
  let liquidity := clamp (m.liquidity + (0.7 - m.liquidity) * 0.2 + liqShock) 0.2 1
  { baseRate := baseRate, spread := spread, liquidity := liquidity }

/-! ### IRR solver (part_000, deal-judge) -/

/-- `npv` accumulator: `Σ cf_i / (1+r)^i` starting at index `i`. -/
def npvAux (r : ℚ) : List ℚ → ℕ → ℚ
  | [], _ => 0
  | cf :: rest, i => cf / (1 + r) ^ i + npvAux r rest (i + 1)

/-- Net present value of a cash-flow stream at rate `r`. -/
def npv (cfs : List ℚ) (r : ℚ) : ℚ := npvAux r cfs 0

/-- The bisection loop of `solveIRR`, fuelled with the iteration budget;
returns the midpoint of the final bracket when the budget is exhausted. -/
def bisectIRR (cfs : List ℚ) (fLo : ℚ) : ℕ → ℚ → ℚ → ℚ
  | 0, lo, hi => (lo + hi) / 2
  | k + 1, lo, hi =>
    let mid := (lo + hi) / 2
    let f := npv cfs mid
    if |f| < 1/1000000 then mid
    else if fLo * f ≤ 0 then bisectIRR cfs fLo k lo mid
    else bisectIRR cfs fLo k mid hi

/-- `solveIRR(cfs)`: `none` models the NaN "no solution" sentinel.  In
exact rational arithmetic the source's `isFinite` guard on the bound
NPVs cannot fire (both bound NPVs are always finite since `1+r > 0`
at both bounds), so only the sign-sharing test remains. -/
def solveIRR (cfs : List ℚ) : Option ℚ :=
  let lo : ℚ := -0.9
  let hi : ℚ := 1.5
  let fLo := npv cfs lo
  let fHi := npv cfs hi
  if fLo * fHi > 0 then none
  else some (bisectIRR cfs fLo 80 lo hi)

/-! ### Game state (part_004, tycoon main) -/

/-- Per-product lease parameters (`LEASE_RULES` entries). -/
structure LeaseRules where
  termMin : ℕ
  termMax : ℕ
  rollPct : ℚ
  deriving Repr, DecidableEq

/-- `LEASE_RULES[productType] || { termMin: 3, termMax: 7, rollPct: 0.15 }`. -/
def leaseRules (pt : String) : LeaseRules :=
  if pt = "multifamily" then ⟨1, 2, 0.55⟩
  else if pt = "hotel" then ⟨1, 1, 1.00⟩
  else if pt = "industrial" then ⟨3, 7, 0.18⟩
  else if pt = "retail" then ⟨5, 10, 0.12⟩
  else if pt = "office" then ⟨5, 12, 0.08⟩
  else if pt = "mixeduse" then ⟨2, 5, 0.22⟩
  else ⟨3, 7, 0.15⟩

/-- `randInt(min, max) = Math.floor(min + rng() * (max - min + 1))`, with
the draw `u` explicit. -/
def randInt (u : ℚ) (lo hi : ℕ) : ℤ :=
  Int.floor ((lo : ℚ) + u * ((hi : ℚ) - (lo : ℚ) + 1))

/-- `makeMaturityYears()`: 5 / 7 / 10-year balloon, draw `u` explicit. -/
def makeMaturityYears (u : ℚ) : ℤ :=
  if u < 0.45 then 5 else if u < 0.75 then 7 else 10

/-- JS `Math.floor(u * len)` used as a list index. -/
def listIdx (u : ℚ) (len : ℕ) : ℕ := (Int.floor (u * (len : ℚ))).toNat

structure Lease where
  yearsRemaining : ℤ
  rollPct : ℚ
  leaseRentIndex : ℚ
  deriving Repr, DecidableEq

structure BuildInfo where
  phase : String
  yearsRemaining : ℤ
  stabilizeYearsRemaining : ℤ
  leaseUpVacancy : ℚ
  deriving Repr, DecidableEq

structure BuildParams where
  yearsToBuild : ℤ
  yearsToStabilize : ℤ
  leaseUpVacancy : ℚ
  deriving Repr, DecidableEq

structure ProductType where
  id : String
  name : String
  baseExpenseRatio : ℚ
  build : BuildParams
  deriving Repr, DecidableEq

structure Property where
  id : String
  name : String
  neighborhood : String
  productType : String
  baseNOI : ℚ
  rentIndexMult : ℚ
  vacancyDelta : ℚ
  capRateDelta : ℚ
  renoLevel : ℕ
  ltv : Option ℚ
  loanBalance : ℚ
  loanRate : ℚ
  amortYears : ℕ
  interestOnly : Bool
  maturityYear : Option ℤ
  build : Option BuildInfo
  lease : Option Lease
  deriving Repr, DecidableEq

structure LoanTerms where
  ltv : ℚ
  rate : ℚ
  amortYears : ℕ
  interestOnly : Bool
  deriving Repr, DecidableEq

structure Listing where
  id : String
  name : String
  neighborhood : String
  productType : String
  price : ℚ
  baseNOI : ℚ
  loanTerms : LoanTerms
  deriving Repr, DecidableEq

structure RunState where
  year : ℤ
  cash : ℚ
  market : Market
  neighborhoods : List Neighborhood
  properties : List Property
  listings : List Listing
  deriving Repr, DecidableEq

structure GameData where
  neighborhoods : List Neighborhood
  productTypes : List ProductType
  events : List MktEvent
  deriving Repr, DecidableEq

def defaultNeighborhood : Neighborhood :=
  ⟨"", "", [], 0, 0, 0, 0, 0, 0⟩

def defaultProduct : ProductType :=
  ⟨"", "", 0, ⟨0, 0, 0⟩⟩

/-- `getNeighborhood(state, id)` (`Array.find` by id; the JS `undefined`
case — a dangling reference — is replaced by a default record). -/
def findNbhd (s : RunState) (id : String) : Neighborhood :=
  (s.neighborhoods.find? (fun n => n.id = id)).getD defaultNeighborhood

/-- `productTypesById[id]` lookup. -/
def productById (ps : List ProductType) (id : String) : ProductType :=
  (ps.find? (fun p => p.id = id)).getD defaultProduct

/-- Replace the first element satisfying `pred` (JS mutates the object
returned by `Array.find` / at `findIndex`, which is the first match). -/
def setFirstWhere {α : Type} (pred : α → Bool) (a' : α) : List α → List α
  | [] => []
  | x :: rest => if pred x then a' :: rest else x :: setFirstWhere pred a' rest

/-- The rent index the NOI sites pass to `computeNOI`:
`p.lease?.leaseRentIndex ?? (n.rentIndex * p.rentIndexMult)`. -/
def effRentIndex (n : Neighborhood) (p : Property) : ℚ :=
  match p.lease with
  | some l => l.leaseRentIndex
  | none => n.rentIndex * p.rentIndexMult

/-- `clamp(n.vacancy + p.vacancyDelta, 0.01, 0.40)` of the NOI sites. -/
def effVacancy (n : Neighborhood) (p : Property) : ℚ :=
  clamp (n.vacancy + p.vacancyDelta) 0.01 0.40

/-- `clamp(n.capRate + p.capRateDelta, 0.03, 0.14)` of the valuation sites. -/
def effCapRate (n : Neighborhood) (p : Property) : ℚ :=
  clamp (n.capRate + p.capRateDelta) 0.03 0.14

/-- `initLeaseForProperty(p)`: draw `u` feeds `randInt`. -/
def initLeaseForProperty (s : RunState) (p : Property) (u : ℚ) : Property :=
  let n := findNbhd s p.neighborhood
  let rules := leaseRules p.productType
  let marketRentIndex := n.rentIndex * p.rentIndexMult
  let newLease : Lease :=
    { yearsRemaining := randInt u rules.termMin rules.termMax
      rollPct := rules.rollPct
      leaseRentIndex := marketRentIndex }
  { p with lease := some newLease }

/-- The body of `updateLeasesOneYear`'s loop for one property. -/
def updateLeasePropertyOneYear (s : RunState) (g : Rng) (p : Property) :
    Property × Rng :=
  match p.lease with
  | none =>
    let (u, g') := g.next
    (initLeaseForProperty s p u, g')
  | some l =>
    let n := findNbhd s p.neighborhood
    let marketRentIndex := n.rentIndex * p.rentIndexMult
    let roll := clamp l.rollPct 0 1
    let blended := l.leaseRentIndex * (1 - roll) + marketRentIndex * roll
    let yr := l.yearsRemaining - 1
    if yr ≤ 0 then
      let rules := leaseRules p.productType
      let (u, g') := g.next
      let newLease : Lease :=
        { yearsRemaining := randInt u rules.termMin rules.termMax
          rollPct := l.rollPct
          leaseRentIndex := marketRentIndex }
      ({ p with lease := some newLease }, g')
    else
      let newLease : Lease :=
        { yearsRemaining := yr, rollPct := l.rollPct, leaseRentIndex := blended }
      ({ p with lease := some newLease }, g)

/-- Lease loop over the property list (order-preserving, RNG threaded). -/
def updateLeasesList (s : RunState) : List Property → Rng → List Property × Rng
  | [], g => ([], g)
  | p :: rest, g =>
    let (p', g1) := updateLeasePropertyOneYear s g p
    let (ps, g2) := updateLeasesList s rest g1
    (p' :: ps, g2)

/-- `updateLeasesOneYear()`. -/
def updateLeasesOneYear (s : RunState) (g : Rng) : RunState × Rng :=
  let (ps, g') := updateLeasesList s s.properties g
  ({ s with properties := ps }, g')

/-- Result of `computePropertySnapshot` (the returned `n`/`product` are
recomputable lookups and are omitted). -/
structure Snapshot where
  noi : ℚ
  capRate : ℚ
  value : ℚ
  ds : DebtService
  deriving Repr, DecidableEq

/-- `computePropertySnapshot(p, productTypesById)`. -/
def computePropertySnapshot (s : RunState) (prods : List ProductType) (p : Property) :
    Snapshot :=
  let n := findNbhd s p.neighborhood
  let product := productById prods p.productType
  let noi := computeNOI p.baseNOI (effRentIndex n p) (effVacancy n p) product.baseExpenseRatio
  let capRate := effCapRate n p
  let value := valueFromNOI noi capRate
  let ds := annualDebtService p.loanBalance p.loanRate p.amortYears p.interestOnly
  ⟨noi, capRate, value, ds⟩

structure Portfolio where
  totalValue : ℚ
  totalDebt : ℚ
  totalNOI : ℚ
  totalCF : ℚ
  equity : ℚ
  portfolioDSCR : Option ℚ
  deriving Repr, DecidableEq

/-- One addend of `computePortfolio`'s accumulation loop. -/
structure PortEntry where
  value : ℚ
  debt : ℚ
  noi : ℚ
  dsPayment : ℚ
  deriving Repr, DecidableEq

/-- The per-property block inside `computePortfolio`'s loop. -/
def portfolioEntry (s : RunState) (prods : List ProductType) (p : Property) : PortEntry :=
  let n := findNbhd s p.neighborhood
  let product := productById prods p.productType
  let noi := computeNOI p.baseNOI (effRentIndex n p) (effVacancy n p) product.baseExpenseRatio
  let value := valueFromNOI noi (effCapRate n p)
  let ds := annualDebtService p.loanBalance p.loanRate p.amortYears p.interestOnly
  ⟨value, p.loanBalance, noi, ds.payment⟩

/-- `computePortfolio(state, productTypesById)` (rational addition is
commutative and associative, so per-component sums equal the JS
accumulator loop). -/
def computePortfolio (s : RunState) (prods : List ProductType) : Portfolio :=
  let entries := s.properties.map (portfolioEntry s prods)
  let totalValue := (entries.map (·.value)).sum
  let totalDebt := (entries.map (·.debt)).sum
  let totalNOI := (entries.map (·.noi)).sum
  let totalDS := (entries.map (·.dsPayment)).sum
  let totalCF := (entries.map (fun e => e.noi - e.dsPayment)).sum
  { totalValue := totalValue, totalDebt := totalDebt, totalNOI := totalNOI
    totalCF := totalCF, equity := totalValue - totalDebt + s.cash
    portfolioDSCR := dscr totalNOI totalDS }

/-- The per-property block inside `applyOperatingCashFlow`'s loop:
returns the amortized property and its cash flow `noi - payment`. -/
def opCashFlowStep (s : RunState) (prods : List ProductType) (p : Property) :
    Property × ℚ :=
  let n := findNbhd s p.neighborhood
  let product := productById prods p.productType
  let noi := computeNOI p.baseNOI (effRentIndex n p) (effVacancy n p) product.baseExpenseRatio
  let ds := annualDebtService p.loanBalance p.loanRate p.amortYears p.interestOnly
  ({ p with loanBalance := max 0 (p.loanBalance - ds.principal) }, noi - ds.payment)

/-- `applyOperatingCashFlow(productTypesById)`. -/
def applyOperatingCashFlow (prods : List ProductType) (s : RunState) : RunState :=
  let results := s.properties.map (opCashFlowStep s prods)
  { s with properties := results.map Prod.fst
           cash := s.cash + (results.map Prod.snd).sum }

/-- `sellProperty(propertyId)`: 2% selling costs, debt paid off, property
removed (`findIndex` + `splice` = remove first id match). -/
def sellProperty (prods : List ProductType) (s : RunState) (pid : String) : RunState :=
  match s.properties.find? (fun q => q.id = pid) with
  | none => s
  | some p =>
    let snap := computePropertySnapshot s prods p
    let salePrice := snap.value
    let sellingCosts := salePrice * 0.02
    let net := salePrice - sellingCosts - p.loanBalance
    { s with cash := s.cash + net
             properties := s.properties.eraseP (fun q => q.id = pid) }

/-- `renovateProperty(propertyId)`. -/
def renovateProperty (prods : List ProductType) (s : RunState) (pid : String) : RunState :=
  match s.properties.find? (fun q => q.id = pid) with
  | none => s
  | some p =>
    if p.renoLevel ≥ 3 then s
    else
      let snap := computePropertySnapshot s prods p
      let nextLevel := p.renoLevel + 1
      let baseCost := snap.value * 0.03
      let cost := clamp (baseCost * (1 + ((nextLevel : ℚ) - 1) * 0.35)) 200000 5000000
      if s.cash < cost then s
      else
        let p' := { p with
          renoLevel := nextLevel
          rentIndexMult := clamp (p.rentIndexMult + 0.03) 0.8 1.35
          vacancyDelta := clamp (p.vacancyDelta - 0.005) (-0.08) 0.20
          lease := (match p.lease with
            | some l => some ({ l with leaseRentIndex := clamp (l.leaseRentIndex * 1.01) 0.6 2.0 })
            | none => none) }
        { s with cash := s.cash - cost
                 properties := setFirstWhere (fun q => q.id = pid) p' s.properties }

/-- The property-field updates a successful `attemptRefi` applies. -/
def refiUpdate (p : Property) (newLoan newRate : ℚ) (newMaturity : ℤ) : Property :=
  { p with loanBalance := newLoan, loanRate := newRate, amortYears := 30
           interestOnly := false, maturityYear := some newMaturity }

/-- `attemptRefi(p, productTypesById)`: two RNG draws (rate, maturity
term) are consumed before the branch; returns (refi ok?, state, rng). -/
def attemptRefi (prods : List ProductType) (s : RunState) (g : Rng) (p : Property) :
    Bool × RunState × Rng :=
  let snap := computePropertySnapshot s prods p
  let newLoan := max 0 (snap.value * (p.ltv.getD 0.65))
  let payoff := p.loanBalance
  let (u1, g1) := g.next
  let newRate := clamp (s.market.baseRate + s.market.spread + 0.018 + u1 * 0.01) 0.03 0.18
  let (u2, g2) := g1.next
  let maturityYears := makeMaturityYears u2
  if newLoan ≥ payoff then
    let cashOut := newLoan - payoff
    let p' := refiUpdate p newLoan newRate (s.year + maturityYears)
    (true,
     { s with cash := s.cash + cashOut
              properties := setFirstWhere (fun q => q.id = p.id) p' s.properties }, g2)
  else
    let gap := payoff - newLoan
    if s.cash ≥ gap then
      let p' := refiUpdate p newLoan newRate (s.year + maturityYears)
      (true,
       { s with cash := s.cash - gap
                properties := setFirstWhere (fun q => q.id = p.id) p' s.properties }, g2)
    else (false, s, g2)

/-- The matured-loan filter of `handleMaturities`
(`p.maturityYear && p.maturityYear <= state.year`; the JS truthiness test
excludes a zero maturity year). -/
def maturedOf (s : RunState) : List Property :=
  s.properties.filter (fun p =>
    match p.maturityYear with
    | some m => (m != 0) && decide (m ≤ s.year)
    | none => false)

/-- One iteration of `handleMaturities`' loop: refinance or force-sell,
then floor cash at 0. -/
def maturityStep (prods : List ProductType) (sg : RunState × Rng) (pid : String) :
    RunState × Rng :=
  match sg.1.properties.find? (fun q => q.id = pid) with
  | none => sg
  | some p =>
    let (ok, s', g') := attemptRefi prods sg.1 sg.2 p
    if ok then (s', g')
    else
      let s2 := sellProperty prods s' pid
      let s3 := if s2.cash < 0 then { s2 with cash := 0 } else s2
      (s3, g')

/-- `handleMaturities()`: matured loans are processed sequentially, in
property-list order. -/
def handleMaturities (prods : List ProductType) (s : RunState) (g : Rng) :
    RunState × Rng :=
  let matured := maturedOf s
  if matured.isEmpty then (s, g)
  else List.foldl (maturityStep prods) (s, g) (matured.map (·.id))

/-- `pickEvent(events)`: 35% chance of no event, else a uniform pick
(`none` also covers the out-of-range index of an empty event list, which
JS reads as `undefined` and `nextYear` treats as no event). -/
def pickEvent (events : List MktEvent) (g : Rng) : Option MktEvent × Rng :=
  let (u1, g1) := g.next
  if u1 < 0.35 then (none, g1)
  else
    let (u2, g2) := g1.next
    (events.get? (listIdx u2 events.length), g2)

/-- One iteration of `generateListings`' loop (index `i`); a neighborhood
whose zoning admits no product yields no listing (JS `continue`). -/
def genListing (data : GameData) (s : RunState) (g : Rng) (i : ℕ) :
    Option Listing × Rng :=
  let (u1, g1) := g.next
  let n := s.neighborhoods.getD (listIdx u1 s.neighborhoods.length) defaultNeighborhood
  let productIds := data.productTypes.map (·.id)
  let allowed := productIds.filter (fun pid => n.zoning.contains pid)
  if allowed.isEmpty then (none, g1)
  else
    let (u2, g2) := g1.next
    let productType := allowed.getD (listIdx u2 allowed.length) ""
    let product := productById data.productTypes productType
    let (u3, g3) := g2.next
    let baseNOI := 350000 + u3 * 900000
    let impliedNOI := baseNOI * n.rentIndex * (1 - n.vacancy)
    let (u4, g4) := g3.next
    let cap := clamp (n.capRate + (u4 - 0.5) * 0.01) 0.04 0.12
    let price := impliedNOI / cap
    let (u5, g5) := g4.next
    let loanRate := clamp (s.market.baseRate + s.market.spread + 0.012 + u5 * 0.01) 0.03 0.14
    let (u6, g6) := g5.next
    let lid := "L" ++ toString s.year ++ "-" ++ toString i ++ "-"
                ++ toString (Int.floor (u6 * 1000000)).toNat
    let l : Listing :=
      { id := lid
        name := n.name ++ " — " ++ product.name
        neighborhood := n.id
        productType := productType
        price := ((jsRound (price / 1000) : ℚ)) * 1000
        baseNOI := baseNOI
        loanTerms := { ltv := 0.65, rate := loanRate, amortYears := 30, interestOnly := false } }
    (some l, g6)

/-- `generateListings()`: three attempts replace `state.listings`. -/
def generateListings (data : GameData) (s : RunState) (g : Rng) : RunState × Rng :=
  let (l0, g0) := genListing data s g 0
  let (l1, g1) := genListing data s g0 1
  let (l2, g2) := genListing data s g1 2
  ({ s with listings := [l0, l1, l2].filterMap id }, g2)

/-- `canBuy(listing)`. -/
def canBuy (s : RunState) (l : Listing) : Bool :=
  s.cash ≥ l.price * (1 - l.loanTerms.ltv)

/-- `buyListing(listing)`: down payment, balloon draw, lease init (JS
pushes the property object, then `initLeaseForProperty` sets its lease;
appending the leased property is the same list). -/
def buyListing (s : RunState) (g : Rng) (l : Listing) : RunState × Rng :=
  let down := l.price * (1 - l.loanTerms.ltv)
  let loanBalance := l.price * l.loanTerms.ltv
  let (u1, g1) := g.next
  let maturityYears := makeMaturityYears u1
  let p0 : Property :=
    { id := "P" ++ l.id
      name := l.name
      neighborhood := l.neighborhood
      productType := l.productType
      baseNOI := l.baseNOI
      rentIndexMult := 1.0
      vacancyDelta := 0.0
      capRateDelta := 0.0
      renoLevel := 0
      ltv := some l.loanTerms.ltv
      loanBalance := loanBalance
      loanRate := l.loanTerms.rate
      amortYears := l.loanTerms.amortYears
      interestOnly := l.loanTerms.interestOnly
      maturityYear := some (s.year + maturityYears)
      build := none
      lease := none }
  let (u2, g2) := g1.next
  let pL := initLeaseForProperty s p0 u2
  ({ s with cash := s.cash - down, properties := s.properties ++ [pL] }, g2)

/-- `startBuild(neighborhoodId, productType)`: zoning gate (before any
draw), 25%-equity cash gate (after the cost draw), construction loan. -/
def startBuild (data : GameData) (s : RunState) (g : Rng)
    (neighborhoodId productType : String) : RunState × Rng :=
  let n := findNbhd s neighborhoodId
  if !(n.zoning.contains productType) then (s, g)
  else
    let product := productById data.productTypes productType
    let (u1, g1) := g.next
    let scarcityPremium := 1 + n.scarcity * 0.35
    let cost := ((jsRound ((9000000 + u1 * 9000000) * scarcityPremium * n.rentIndex / 1000) : ℚ)) * 1000
    if s.cash < cost * 0.25 then (s, g1)
    else
      let equity := cost * 0.25
      let loanBalance := cost * 0.75
      let (u2, g2) := g1.next
      let pid := "B" ++ toString s.year ++ "-" ++ toString (Int.floor (u2 * 1000000)).toNat
      let p : Property :=
        { id := pid
          name := n.name ++ " — New " ++ product.name
          neighborhood := neighborhoodId
          productType := productType
          baseNOI := 650000
          rentIndexMult := 1.0
          vacancyDelta := 0.0
          capRateDelta := 0.0
          renoLevel := 0
          ltv := some 0.65
          loanBalance := loanBalance
          loanRate := clamp (s.market.baseRate + s.market.spread + 0.02) 0.04 0.16
          amortYears := 30
          interestOnly := true
          maturityYear := some (s.year + 3)
          build := some
            { phase := "construction"
              yearsRemaining := product.build.yearsToBuild
              stabilizeYearsRemaining := product.build.yearsToStabilize
              leaseUpVacancy := product.build.leaseUpVacancy }
          lease := none }
      ({ s with cash := s.cash - equity, properties := s.properties ++ [p] }, g2)

/-- The body of `processBuildPhases`' loop for one property: advance
construction / lease-up; stabilization converts to a perm loan (rate
draw, balloon draw) and initializes the lease (term draw). -/
def processBuildProperty (s : RunState) (g : Rng) (p : Property) : Property × Rng :=
  match p.build with
  | none => (p, g)
  | some b =>
    if b.phase = "construction" then
      let yr := b.yearsRemaining - 1
      if yr ≤ 0 then
        ({ p with build := some { b with phase := "leaseup", yearsRemaining := yr } }, g)
      else
        ({ p with build := some { b with yearsRemaining := yr } }, g)
    else if b.phase = "leaseup" then
      let sy := b.stabilizeYearsRemaining - 1
      let vd := max p.vacancyDelta b.leaseUpVacancy
      if sy ≤ 0 then
        let (u1, g1) := g.next
        let newRate := clamp (s.market.baseRate + s.market.spread + 0.018 + u1 * 0.01) 0.04 0.16
        let (u2, g2) := g1.next
        let maturityYears := makeMaturityYears u2
        let p1 := { p with build := none, vacancyDelta := 0.0, interestOnly := false
                           amortYears := 30, loanRate := newRate
                           maturityYear := some (s.year + maturityYears) }
        let (u3, g3) := g2.next
        (initLeaseForProperty s p1 u3, g3)
      else
        ({ p with build := some { b with stabilizeYearsRemaining := sy }
                  vacancyDelta := vd }, g)
    else (p, g)

/-- Build-phase loop over the property list. -/
def processBuildList (s : RunState) : List Property → Rng → List Property × Rng
  | [], g => ([], g)
  | p :: rest, g =>
    let (p', g1) := processBuildProperty s g p
    let (ps, g2) := processBuildList s rest g1
    (p' :: ps, g2)

/-- `processBuildPhases()`. -/
def processBuildPhases (s : RunState) (g : Rng) : RunState × Rng :=
  let (ps, g') := processBuildList s s.properties g
  ({ s with properties := ps }, g')

/-- `updateNeighborhoodYear` with its four draws taken from the RNG
stream (the returned `rentGrowth` is discarded by `nextYear`). -/
def updateNeighborhoodYearRng (n : Neighborhood) (m : Market) (g : Rng) :
    Neighborhood × Rng :=
  let (u1, g1) := g.next
  let (u2, g2) := g1.next
  let (u3, g3) := g2.next
  let (u4, g4) := g3.next
  ((updateNeighborhoodYear n m u1 u2 u3 u4).1, g4)

/-- `nextYear`'s neighborhood loop (order-preserving, RNG threaded). -/
def updateNeighborhoodsList (m : Market) : List Neighborhood → Rng → List Neighborhood × Rng
  | [], g => ([], g)
  | n :: rest, g =>
    let (n', g1) := updateNeighborhoodYearRng n m g
    let (ns, g2) := updateNeighborhoodsList m rest g1
    (n' :: ns, g2)

/-- `nextYear()`: the yearly advance in source order — event pick,
year increment, market update, event application, neighborhood updates,
lease updates, build phases, maturities, operating cash flow, listings. -/
def nextYear (data : GameData) (s : RunState) (g : Rng) : RunState × Rng :=
  let prods := data.productTypes
  let (event, g1) := pickEvent data.events g
  let s1 : RunState := { s with year := s.year + 1 }
  let (u1, g1a) := g1.next
  let (u2, g1b) := g1a.next
  let (u3, g1c) := g1b.next
  let s2 : RunState := { s1 with market := updateMarketYear s1.market u1 u2 u3 }
  let s3 : RunState :=
    match event with
    | none => s2
    | some ev =>
      if ev.scope = "global" then
        { s2 with market := applyEventToMarket s2.market ev.effects }
      else if ev.scope = "neighborhood" then
        match s2.neighborhoods.find? (fun n => n.id = ev.targetNeighborhood) with
        | some n =>
          let ns := setFirstWhere (fun x => x.id = ev.targetNeighborhood)
            (applyEventToNeighborhood n ev.effects) s2.neighborhoods
          { s2 with neighborhoods := ns }
        | none => s2
      else s2
  let (ns, g2) := updateNeighborhoodsList s3.market s3.neighborhoods g1c
  let s4 := { s3 with neighborhoods := ns }
  let (s5, g3) := updateLeasesOneYear s4 g2
  let (s6, g4) := processBuildPhases s5 g3
  let (s7, g5) := handleMaturities prods s6 g4
  let s8 := applyOperatingCashFlow prods s7
  generateListings data s8 g5

/-- A player command, as wired by the UI handlers. -/
inductive Action where
  | buy (listingId : String)
  | build (neighborhoodId productType : String)
  | sell (propertyId : String)
  | renovate (propertyId : String)
  | advance
  deriving Repr, DecidableEq

/-- Apply one player command (`hookUI` handlers): a buy also removes the
listing; unknown ids are no-ops. -/
def applyAction (data : GameData) (s : RunState) (g : Rng) : Action → RunState × Rng
  | .buy lid =>
    match s.listings.find? (fun x => x.id = lid) with
    | none => (s, g)
    | some l =>
      let (s', g') := buyListing s g l
      ({ s' with listings := s'.listings.filter (fun x => !(x.id = lid)) }, g')
  | .build nId pId => startBuild data s g nId pId
  | .sell pid => (sellProperty data.productTypes s pid, g)
  | .renovate pid => (renovateProperty data.productTypes s pid, g)
  | .advance => nextYear data s g

/-- Apply a sequence of player commands. -/
def runActions (data : GameData) : List Action → RunState → Rng → RunState × Rng
  | [], s, g => (s, g)
  | a :: rest, s, g =>
    let (s', g') := applyAction data s g a
    runActions data rest s' g'

/-- `RUN_DEFAULTS` plus per-neighborhood demand seeding of `initRun`
(normal difficulty: starting cash 3,000,000). -/
def initState (data : GameData) : RunState :=
  { year := 1
    cash := 3000000
    market := { baseRate := 0.045, spread := 0.020, liquidity := 0.70 }
    neighborhoods := data.neighborhoods.map (fun n => { n with demand := n.baseDemand })
    properties := []
    listings := [] }

/-- `initRun`'s fresh-run path: default state, then initial listings. -/
def makeRun (data : GameData) (g : Rng) : RunState × Rng :=
  generateListings data (initState data) g

/-- A whole run: fresh state from a seed, then a player-command script. -/
def runGame (data : GameData) (seed : ℕ) (acts : List Action) : RunState × Rng :=
  let (s, g) := makeRun data (makeRng seed)
  runActions data acts s g

/-! ### Helper lemmas -/

lemma le_clamp (x lo hi : ℚ) : lo ≤ clamp x lo hi := le_max_left _ _

lemma clamp_le (x lo hi : ℚ) (h : lo ≤ hi) : clamp x lo hi ≤ hi :=
  max_le h (min_le_left _ _)

/-- `randInt` lands in `[lo, hi]` whenever the draw is in `[0, 1)`. -/
lemma randInt_mem (u : ℚ) (lo hi : ℕ) (hlh : lo ≤ hi) (h0 : 0 ≤ u) (h1 : u < 1) :
    (lo : ℤ) ≤ randInt u lo hi ∧ randInt u lo hi ≤ (hi : ℤ) := by
  unfold randInt
  have hspan : (0 : ℚ) < (hi : ℚ) - (lo : ℚ) + 1 := by
    have : (lo : ℚ) ≤ (hi : ℚ) := by exact_mod_cast hlh
    linarith
  constructor
  · apply Int.le_floor.mpr
    push_cast
    nlinarith
  · have hx : (lo : ℚ) + u * ((hi : ℚ) - (lo : ℚ) + 1) < (((hi : ℤ) + 1 : ℤ) : ℚ) := by
      push_cast
      nlinarith
    have h2 := Int.floor_lt.mpr hx
    omega

/-! ### Bounded-domain predicates (spec §3) -/

/-- The declared market domains: `baseRate ∈ [0, 0.12]`,
`spread ∈ [0, 0.08]`, `liquidity ∈ [0.2, 1.0]`. -/
def MarketInBounds (m : Market) : Prop :=
  0 ≤ m.baseRate ∧ m.baseRate ≤ 0.12 ∧
  0 ≤ m.spread ∧ m.spread ≤ 0.08 ∧
  0.2 ≤ m.liquidity ∧ m.liquidity ≤ 1

/-- The declared neighborhood domains: `demand ∈ [0.2, 1.2]`,
`rentIndex ∈ [0.6, 1.8]`, `vacancy ∈ [0.01, 0.35]`, `capRate ∈ [0.03, 0.12]`. -/
def NbhdInBounds (n : Neighborhood) : Prop :=
  0.2 ≤ n.demand ∧ n.demand ≤ 1.2 ∧
  0.6 ≤ n.rentIndex ∧ n.rentIndex ≤ 1.8 ∧
  0.01 ≤ n.vacancy ∧ n.vacancy ≤ 0.35 ∧
  0.03 ≤ n.capRate ∧ n.capRate ≤ 0.12

/-- Sample market for concrete instantiations. -/
def mW : Market := ⟨0.045, 0.02, 0.7⟩

/-- Sample neighborhood for concrete instantiations. -/
def nW : Neighborhood := ⟨"d", "Downtown", ["office"], 0.8, 0.5, 0.8, 1, 0.05, 0.06⟩

/-- Sample event deltas for concrete instantiations. -/
def eW : EventEffects := { demandDelta := some 0.1, vacancyDelta := some (-0.02) }

/-! ### C1 — bounds invariant of the yearly updates and event applications -/

lemma updateMarketYear_bounds (m : Market) (u1 u2 u3 : ℚ) :
    MarketInBounds (updateMarketYear m u1 u2 u3) := by
  unfold MarketInBounds updateMarketYear
  dsimp only
  exact ⟨le_clamp _ _ _, clamp_le _ _ _ (by norm_num), le_clamp _ _ _,
         clamp_le _ _ _ (by norm_num), le_clamp _ _ _, clamp_le _ _ _ (by norm_num)⟩

lemma updateNeighborhoodYear_bounds (n : Neighborhood) (m : Market) (u1 u2 u3 u4 : ℚ) :
    NbhdInBounds (updateNeighborhoodYear n m u1 u2 u3 u4).1 := by
  unfold NbhdInBounds updateNeighborhoodYear
  dsimp only
  exact ⟨le_clamp _ _ _, clamp_le _ _ _ (by norm_num), le_clamp _ _ _,
         clamp_le _ _ _ (by norm_num), le_clamp _ _ _, clamp_le _ _ _ (by norm_num),
         le_clamp _ _ _, clamp_le _ _ _ (by norm_num)⟩

lemma applyEventToMarket_bounds (m : Market) (e : EventEffects) :
    MarketInBounds (applyEventToMarket m e) := by
  unfold MarketInBounds applyEventToMarket
  dsimp only
  exact ⟨le_clamp _ _ _, clamp_le _ _ _ (by norm_num), le_clamp _ _ _,
         clamp_le _ _ _ (by norm_num), le_clamp _ _ _, clamp_le _ _ _ (by norm_num)⟩

lemma applyEventToNeighborhood_bounds (n : Neighborhood) (e : EventEffects)
    (hn : NbhdInBounds n) : NbhdInBounds (applyEventToNeighborhood n e) := by
  obtain ⟨hd1, hd2, hr1, hr2, hv1, hv2, hc1, hc2⟩ := hn
  obtain ⟨b, sp, li, dd, rd, vd, cd⟩ := e
  unfold NbhdInBounds applyEventToNeighborhood
  dsimp only
  refine ⟨?_, ?_, ?_, ?_, ?_, ?_, ?_, ?_⟩
  · cases dd with
    | none => exact hd1
    | some d => exact le_clamp _ _ _
  · cases dd with
    | none => exact hd2
    | some d => exact clamp_le _ _ _ (by norm_num)
  · cases rd with
    | none => exact hr1
    | some d => exact le_clamp _ _ _
  · cases rd with
    | none => exact hr2
    | some d => exact clamp_le _ _ _ (by norm_num)
  · cases vd with
    | none => exact hv1
    | some d => exact le_clamp _ _ _
  · cases vd with
    | none => exact hv2
    | some d => exact clamp_le _ _ _ (by norm_num)
  · cases cd with
    | none => exact hc1
    | some d => exact le_clamp _ _ _
  · cases cd with
    | none => exact hc2
    | some d => exact clamp_le _ _ _ (by norm_num)

/-- C1.  After `updateMarketYear`, `updateNeighborhoodYear`,
`applyEventToMarket` and `applyEventToNeighborhood`, every bounded market
and neighborhood field lies in its declared domain — for arbitrary event
deltas and arbitrary RNG draws; the event application on a neighborhood
needs the input to be in bounds (fields with no delta are untouched), the
other three updates clamp unconditionally. -/
theorem bounds_invariant_updates (m : Market) (n : Neighborhood) (e : EventEffects)
    (u1 u2 u3 u4 : ℚ) (hn : NbhdInBounds n) :
    MarketInBounds (updateMarketYear m u1 u2 u3) ∧
    NbhdInBounds (updateNeighborhoodYear n m u1 u2 u3 u4).1 ∧
    MarketInBounds (applyEventToMarket m e) ∧
    NbhdInBounds (applyEventToNeighborhood n e) :=
  ⟨updateMarketYear_bounds m u1 u2 u3, updateNeighborhoodYear_bounds n m u1 u2 u3 u4,
   applyEventToMarket_bounds m e, applyEventToNeighborhood_bounds n e hn⟩

/-- C1 witness: the bounds hold at a concrete market, neighborhood,
event and draw. -/
theorem bounds_invariant_updates_witness :
    NbhdInBounds nW ∧
    (MarketInBounds (updateMarketYear mW 0.5 0.5 0.5) ∧
     NbhdInBounds (updateNeighborhoodYear nW mW 0.5 0.5 0.5 0.5).1 ∧
     MarketInBounds (applyEventToMarket mW eW) ∧
     NbhdInBounds (applyEventToNeighborhood nW eW)) :=
  ⟨by norm_num [NbhdInBounds, nW],
   bounds_invariant_updates mW nW eW 0.5 0.5 0.5 0.5 (by norm_num [NbhdInBounds, nW])⟩

/-! ### C4 — IRR solver bracket failure -/

lemma npvAux_pos (r : ℚ) (hr : 0 < 1 + r) :
    ∀ (cfs : List ℚ), (∀ cf ∈ cfs, 0 < cf) → cfs ≠ [] → ∀ i, 0 < npvAux r cfs i := by
  intro cfs
  induction cfs with
  | nil => intro _ hne; exact absurd rfl hne
  | cons cf rest ih =>
    intro hpos _ i
    have hcf : 0 < cf := hpos cf (by simp)
    have h1 : 0 < cf / (1 + r) ^ i := div_pos hcf (pow_pos hr i)
    by_cases hrest : rest = []
    · subst hrest; simpa [npvAux]
    · have h2 := ih (fun x hx => hpos x (by simp [hx])) hrest (i + 1)
      simp only [npvAux]
      linarith

lemma npvAux_neg (r : ℚ) (hr : 0 < 1 + r) :
    ∀ (cfs : List ℚ), (∀ cf ∈ cfs, cf < 0) → cfs ≠ [] → ∀ i, npvAux r cfs i < 0 := by
  intro cfs
  induction cfs with
  | nil => intro _ hne; exact absurd rfl hne
  | cons cf rest ih =>
    intro hneg _ i
    have hcf : cf < 0 := hneg cf (by simp)
    have h1 : cf / (1 + r) ^ i < 0 := div_neg_of_neg_of_pos hcf (pow_pos hr i)
    by_cases hrest : rest = []
    · subst hrest; simpa [npvAux]
    · have h2 := ih (fun x hx => hneg x (by simp [hx])) hrest (i + 1)
      simp only [npvAux]
      linarith

/-- C4.  `solveIRR` returns the "no solution" sentinel exactly when the
NPVs at the bounds −0.9 and 1.5 share a (strict) sign; otherwise it
returns the result of at most 80 bisection iterations (first midpoint
with `|NPV| < 1e-6`, else the final midpoint).  Any all-positive or
all-negative stream — in particular `[100, 50, 50]` — yields the
sentinel.  (In exact arithmetic both bound NPVs are finite, so the
source's non-finite guard cannot fire.) -/
theorem solveIRR_spec (cfs : List ℚ) :
    (solveIRR cfs = none ↔ npv cfs (-0.9) * npv cfs 1.5 > 0) ∧
    (¬ npv cfs (-0.9) * npv cfs 1.5 > 0 →
       solveIRR cfs = some (bisectIRR cfs (npv cfs (-0.9)) 80 (-0.9) 1.5)) ∧
    ((∀ cf ∈ cfs, 0 < cf) → cfs ≠ [] → solveIRR cfs = none) ∧
    ((∀ cf ∈ cfs, cf < 0) → cfs ≠ [] → solveIRR cfs = none) ∧
    solveIRR [100, 50, 50] = none := by
  have hlo : (0 : ℚ) < 1 + (-0.9) := by norm_num
  have hhi : (0 : ℚ) < 1 + (1.5 : ℚ) := by norm_num
  have hbranch : solveIRR cfs =
      if npv cfs (-0.9) * npv cfs 1.5 > 0 then none
      else some (bisectIRR cfs (npv cfs (-0.9)) 80 (-0.9) 1.5) := rfl
  have hiff : solveIRR cfs = none ↔ npv cfs (-0.9) * npv cfs 1.5 > 0 := by
    rw [hbranch]
    split_ifs with h
    · simp [h]
    · simp [h]
  refine ⟨hiff, ?_, ?_, ?_, ?_⟩
  · intro h
    rw [hbranch, if_neg h]
  · intro hpos hne
    apply hiff.mpr
    exact mul_pos (npvAux_pos _ hlo cfs hpos hne 0) (npvAux_pos _ hhi cfs hpos hne 0)
  · intro hneg hne
    apply hiff.mpr
    have h1 := npvAux_neg _ hlo cfs hneg hne 0
    have h2 := npvAux_neg _ hhi cfs hneg hne 0
    exact mul_pos_of_neg_of_neg h1 h2
  · norm_num [solveIRR, npv, npvAux]

/-- C4 witness: the all-positive stream `[100, 50, 50]` yields the
sentinel, via the general bracket-failure statement. -/
theorem solveIRR_spec_witness :
    (∀ cf ∈ [(100 : ℚ), 50, 50], 0 < cf) ∧ solveIRR [100, 50, 50] = none :=
  ⟨by norm_num, (solveIRR_spec [100, 50, 50]).2.2.1 (by norm_num) (by simp)⟩

/-! ### C5 — NOI formula and non-negativity -/

/-- C5.  For `expenseRatio < 1`, `computeNOI` equals the base NOI
rescaled by `rentIndex · (1 − vacancy) · effectiveRentFactor(vacancy)`
floored at 0; the effective rent factor always lies in `[0.92, 1]`; and
`computeNOI` is never negative (for any inputs whatsoever). -/
theorem computeNOI_spec (baseNOI rentIndex vacancy er : ℚ) (h : er < 1) :
    computeNOI baseNOI rentIndex vacancy er
      = max 0 (baseNOI * (rentIndex * (1 - vacancy) * computeEffectiveRentFactor vacancy)) ∧
    0.92 ≤ computeEffectiveRentFactor vacancy ∧
    computeEffectiveRentFactor vacancy ≤ 1 ∧
    0 ≤ computeNOI baseNOI rentIndex vacancy er := by
  have hne : (1 : ℚ) - er ≠ 0 := by
    intro hc
    have : er = 1 := by linarith
    linarith
  refine ⟨?_, ?_, ?_, le_max_left _ _⟩
  · have key : baseNOI / (1 - er) * (rentIndex * (1 - vacancy) * computeEffectiveRentFactor vacancy)
        - baseNOI / (1 - er) * (rentIndex * (1 - vacancy) * computeEffectiveRentFactor vacancy) * er
        = baseNOI * (rentIndex * (1 - vacancy) * computeEffectiveRentFactor vacancy) := by
      field_simp
      ring
    unfold computeNOI
    dsimp only
    rw [key]
  · unfold computeEffectiveRentFactor
    have := clamp_le ((vacancy - 0.05) * 0.5) 0 0.08 (by norm_num)
    linarith
  · unfold computeEffectiveRentFactor
    have := le_clamp ((vacancy - 0.05) * 0.5) 0 0.08
    linarith

/-- C5 witness: the formula and bounds at concrete inputs. -/
theorem computeNOI_spec_witness :
    (0.35 : ℚ) < 1 ∧
    (computeNOI 100 1.1 0.10 0.35
       = max 0 (100 * (1.1 * (1 - 0.10) * computeEffectiveRentFactor 0.10)) ∧
     0.92 ≤ computeEffectiveRentFactor 0.10 ∧
     computeEffectiveRentFactor 0.10 ≤ 1 ∧
     0 ≤ computeNOI 100 1.1 0.10 0.35) :=
  ⟨by norm_num, computeNOI_spec 100 1.1 0.10 0.35 (by norm_num)⟩

/-! ### C7 — amortization consistency -/

/-- The claim's forward-repayment iteration:
`balance ↦ balance·(1+rate) − payment`. -/
def amortForward (rate payment balance : ℚ) : ℕ → ℚ
  | 0 => balance
  | k + 1 => amortForward rate payment balance k * (1 + rate) - payment

lemma amortForward_closed (r pmt b : ℚ) (hr : r ≠ 0) (k : ℕ) :
    amortForward r pmt b k = b * (1 + r) ^ k - pmt * ((1 + r) ^ k - 1) / r := by
  induction k with
  | zero => simp [amortForward]
  | succ k ih =>
    rw [amortForward, ih]
    field_simp
    ring

/-! ### C3 — yearly lease update -/

lemma leaseRules_min_le_max (pt : String) :
    (leaseRules pt).termMin ≤ (leaseRules pt).termMax := by
  unfold leaseRules
  split_ifs <;> norm_num

/-- C3.  For a property with an initialized lease, the yearly update
blends `leaseRentIndex` a clamped `rollPct` of the way to the market
rent index (neighborhood `rentIndex` × the property's `rentIndexMult`)
and decrements the term; on expiry (`yearsRemaining − 1 ≤ 0`) the term
is redrawn inside the product's `[termMin, termMax]` range (for a draw
in `[0,1)`) and `leaseRentIndex` snaps exactly to the market rent index.
With `rollPct = 1` the post-update `leaseRentIndex` equals the market
rent index in either branch. -/
theorem lease_yearly_update_spec (s : RunState) (g : Rng) (p : Property) (l : Lease)
    (hl : p.lease = some l) (h0 : 0 ≤ g.stream g.pos) (h1 : g.stream g.pos < 1) :
    (¬ l.yearsRemaining - 1 ≤ 0 →
       (updateLeasePropertyOneYear s g p).1.lease = some
         { yearsRemaining := l.yearsRemaining - 1
           rollPct := l.rollPct
           leaseRentIndex := l.leaseRentIndex * (1 - clamp l.rollPct 0 1)
             + (findNbhd s p.neighborhood).rentIndex * p.rentIndexMult * clamp l.rollPct 0 1 } ∧
       (updateLeasePropertyOneYear s g p).2 = g) ∧
    (l.yearsRemaining - 1 ≤ 0 →
       (updateLeasePropertyOneYear s g p).1.lease = some
         { yearsRemaining := randInt (g.stream g.pos)
             (leaseRules p.productType).termMin (leaseRules p.productType).termMax
           rollPct := l.rollPct
           leaseRentIndex := (findNbhd s p.neighborhood).rentIndex * p.rentIndexMult } ∧
       ((leaseRules p.productType).termMin : ℤ) ≤ randInt (g.stream g.pos)
           (leaseRules p.productType).termMin (leaseRules p.productType).termMax ∧
       randInt (g.stream g.pos)
           (leaseRules p.productType).termMin (leaseRules p.productType).termMax
         ≤ ((leaseRules p.productType).termMax : ℤ)) ∧
    (l.rollPct = 1 → ∀ l', (updateLeasePropertyOneYear s g p).1.lease = some l' →
       l'.leaseRentIndex = (findNbhd s p.neighborhood).rentIndex * p.rentIndexMult) := by
  have hrand := randInt_mem (g.stream g.pos) (leaseRules p.productType).termMin
    (leaseRules p.productType).termMax (leaseRules_min_le_max _) h0 h1
  unfold updateLeasePropertyOneYear
  rw [hl]
  dsimp only
  refine ⟨?_, ?_, ?_⟩
  · intro h
    rw [if_neg h]
    exact ⟨rfl, rfl⟩
  · intro h
    rw [if_pos h]
    exact ⟨rfl, hrand.1, hrand.2⟩
  · intro hroll l' hl'
    have hclamp : clamp l.rollPct 0 1 = 1 := by
      rw [hroll]
      unfold clamp
      norm_num
    by_cases h : l.yearsRemaining - 1 ≤ 0
    · rw [if_pos h] at hl'
      dsimp only at hl'
      obtain rfl : _ = l' := Option.some.inj hl'
      rfl
    · rw [if_neg h] at hl'
      dsimp only at hl'
      obtain rfl : _ = l' := Option.some.inj hl'
      dsimp only
      rw [hclamp]
      ring

/-- Sample RNG stream (constant 0.5 draws) for concrete instantiations. -/
def gW : Rng := ⟨fun _ => 0.5, 0⟩

/-- Sample product for concrete instantiations. -/
def prodW : ProductType := ⟨"office", "Office", 0.5, ⟨2, 2, 0.25⟩⟩

/-- Sample in-place lease for concrete instantiations. -/
def lW : Lease := ⟨3, 1, 1.2⟩

/-- Sample leased property for concrete instantiations. -/
def pW3 : Property :=
  { id := "P1", name := "Downtown — Office", neighborhood := "d", productType := "office"
    baseNOI := 100000, rentIndexMult := 1.0, vacancyDelta := 0.0, capRateDelta := 0.0
    renoLevel := 0, ltv := some 0.65, loanBalance := 5000000, loanRate := 0.05
    amortYears := 30, interestOnly := true, maturityYear := some 10
    build := none, lease := some lW }

/-- Sample run state for concrete instantiations. -/
def sW : RunState :=
  { year := 10, cash := 0, market := mW, neighborhoods := [nW]
    properties := [pW3], listings := [] }

/-- C3 witness: the expiry branch fires for the concrete lease (term
3 → 2 → no expiry: with `yearsRemaining = 3` the non-expiry branch
fires), with the concrete constant-0.5 RNG stream. -/
theorem lease_yearly_update_spec_witness :
    pW3.lease = some lW ∧ 0 ≤ gW.stream gW.pos ∧ gW.stream gW.pos < 1 ∧
    (¬ lW.yearsRemaining - 1 ≤ 0 →
       (updateLeasePropertyOneYear sW gW pW3).1.lease = some
         { yearsRemaining := lW.yearsRemaining - 1
           rollPct := lW.rollPct
           leaseRentIndex := lW.leaseRentIndex * (1 - clamp lW.rollPct 0 1)
             + (findNbhd sW pW3.neighborhood).rentIndex * pW3.rentIndexMult * clamp lW.rollPct 0 1 } ∧
       (updateLeasePropertyOneYear sW gW pW3).2 = gW) ∧
    (lW.rollPct = 1 → ∀ l', (updateLeasePropertyOneYear sW gW pW3).1.lease = some l' →
       l'.leaseRentIndex = (findNbhd sW pW3.neighborhood).rentIndex * pW3.rentIndexMult) := by
  have h := lease_yearly_update_spec sW gW pW3 lW rfl (by norm_num [gW]) (by norm_num [gW])
  exact ⟨rfl, by norm_num [gW], by norm_num [gW], h.1, h.2.2⟩

/-! ### C10 — effective vacancy/cap-rate clamps make the zero-cap fallback unreachable -/

/-- C10.  The per-property snapshot, the portfolio aggregation entry and
the operating-cash-flow step all use the clamped effective vacancy
(`[0.01, 0.40]`) for NOI; the two valuation sites use the clamped
effective cap rate (`[0.03, 0.14]`), which is strictly positive, so
`valueFromNOI` always takes its division branch (the zero-denominator
fallback is unreachable from these computations). -/
theorem valuation_clamp_spec (s : RunState) (prods : List ProductType) (p : Property) :
    0.01 ≤ effVacancy (findNbhd s p.neighborhood) p ∧
    effVacancy (findNbhd s p.neighborhood) p ≤ 0.40 ∧
    0.03 ≤ effCapRate (findNbhd s p.neighborhood) p ∧
    effCapRate (findNbhd s p.neighborhood) p ≤ 0.14 ∧
    (computePropertySnapshot s prods p).noi
      = computeNOI p.baseNOI (effRentIndex (findNbhd s p.neighborhood) p)
          (effVacancy (findNbhd s p.neighborhood) p)
          (productById prods p.productType).baseExpenseRatio ∧
    (computePropertySnapshot s prods p).capRate = effCapRate (findNbhd s p.neighborhood) p ∧
    (computePropertySnapshot s prods p).value
      = (computePropertySnapshot s prods p).noi / (computePropertySnapshot s prods p).capRate ∧
    (portfolioEntry s prods p).value
      = (portfolioEntry s prods p).noi / effCapRate (findNbhd s p.neighborhood) p := by
  have hpos : (0 : ℚ) < effCapRate (findNbhd s p.neighborhood) p :=
    lt_of_lt_of_le (by norm_num) (le_clamp _ _ _)
  refine ⟨le_clamp _ _ _, clamp_le _ _ _ (by norm_num), le_clamp _ _ _,
          clamp_le _ _ _ (by norm_num), rfl, rfl, ?_, ?_⟩
  · show valueFromNOI _ _ = _
    unfold valueFromNOI
    rw [if_pos hpos]
    rfl
  · show valueFromNOI _ _ = _
    unfold valueFromNOI
    rw [if_pos hpos]
    rfl

/-! ### C9 — NOI is priced off the in-place lease index when a lease exists -/

/-- C9.  All three NOI sites (`computePropertySnapshot`,
`computePortfolio` via its per-property entry, `applyOperatingCashFlow`
via its per-property step) pass the in-place `lease.leaseRentIndex` to
`computeNOI` whenever a lease sub-state exists, and the market product
`rentIndex × rentIndexMult` only as the no-lease fallback; consequently,
for a leased property the snapshot NOI does not depend on
`rentIndexMult` at all (a renovation's `rentIndexMult` bump acts on NOI
only indirectly, through later lease blending). -/
theorem noi_lease_source_spec (s : RunState) (prods : List ProductType) (p : Property) :
    (∀ l, p.lease = some l →
       effRentIndex (findNbhd s p.neighborhood) p = l.leaseRentIndex) ∧
    (p.lease = none →
       effRentIndex (findNbhd s p.neighborhood) p
         = (findNbhd s p.neighborhood).rentIndex * p.rentIndexMult) ∧
    (computePropertySnapshot s prods p).noi
      = computeNOI p.baseNOI (effRentIndex (findNbhd s p.neighborhood) p)
          (effVacancy (findNbhd s p.neighborhood) p)
          (productById prods p.productType).baseExpenseRatio ∧
    (portfolioEntry s prods p).noi
      = computeNOI p.baseNOI (effRentIndex (findNbhd s p.neighborhood) p)
          (effVacancy (findNbhd s p.neighborhood) p)
          (productById prods p.productType).baseExpenseRatio ∧
    (opCashFlowStep s prods p).2
      = computeNOI p.baseNOI (effRentIndex (findNbhd s p.neighborhood) p)
          (effVacancy (findNbhd s p.neighborhood) p)
          (productById prods p.productType).baseExpenseRatio
        - (annualDebtService p.loanBalance p.loanRate p.amortYears p.interestOnly).payment ∧
    (computePortfolio s prods).totalNOI
      = ((s.properties.map (portfolioEntry s prods)).map PortEntry.noi).sum ∧
    (applyOperatingCashFlow prods s).cash
      = s.cash + ((s.properties.map (opCashFlowStep s prods)).map Prod.snd).sum ∧
    (∀ l m1 m2, p.lease = some l →
       (computePropertySnapshot s prods { p with rentIndexMult := m1 }).noi
         = (computePropertySnapshot s prods { p with rentIndexMult := m2 }).noi) := by
  refine ⟨?_, ?_, rfl, rfl, rfl, rfl, rfl, ?_⟩
  · intro l hl
    unfold effRentIndex
    rw [hl]
  · intro hl
    unfold effRentIndex
    rw [hl]
  · intro l m1 m2 hl
    unfold computePropertySnapshot effRentIndex effVacancy
    dsimp only
    rw [hl]

/-- C9 witness: for the concrete leased property, the rent index passed
to `computeNOI` is the lease's in-place index. -/
theorem noi_lease_source_spec_witness :
    pW3.lease = some lW ∧
    effRentIndex (findNbhd sW pW3.neighborhood) pW3 = lW.leaseRentIndex ∧
    (computePropertySnapshot sW [prodW] { pW3 with rentIndexMult := 0.9 }).noi
      = (computePropertySnapshot sW [prodW] { pW3 with rentIndexMult := 1.1 }).noi :=
  ⟨rfl, (noi_lease_source_spec sW [prodW] pW3).1 lW rfl,
   (noi_lease_source_spec sW [prodW] pW3).2.2.2.2.2.2.2 lW 0.9 1.1 rfl⟩

/-- C7.  For balance 1,000,000, rate 0.05, 30-year amortization, the
annual payment equals `balance·rate / (1 − (1+rate)^−30)`, and repaying
forward for 30 years (interest recomputed on the declining balance each
year) leaves a balance of exactly 0 in exact arithmetic. -/
theorem amortization_consistency :
    (annualDebtService 1000000 0.05 30 false).payment
      = 1000000 * 0.05 / (1 - (1 + 0.05) ^ (-(30 : ℤ))) ∧
    amortForward 0.05 ((annualDebtService 1000000 0.05 30 false).payment) 1000000 30 = 0 := by
  constructor
  · norm_num [annualDebtService]
  · rw [amortForward_closed _ _ _ (by norm_num)]
    norm_num [annualDebtService, zpow_neg]

/-! ### C6 — seeded determinism of whole runs -/

/-- Sample reference data for concrete instantiations. -/
def dataW : GameData :=
  ⟨[nW], [prodW], [⟨"global", "", { baseRateDelta := some 0.01 }⟩]⟩

/-- C6.  Two runs from equal seeds applying the same player-action
script produce identical states: every stochastic draw of the yearly
advance comes from the single seeded RNG stream threaded through
`runGame` in a fixed order, and (as the embedding exhibits) no step
reads any other nondeterministic source. -/
theorem run_determinism (data : GameData) (seed1 seed2 : ℕ) (acts : List Action)
    (h : seed1 = seed2) :
    runGame data seed1 acts = runGame data seed2 acts := by
  rw [h]

/-- C6 witness: a concrete one-year run repeated from the same seed. -/
theorem run_determinism_witness :
    (42 : ℕ) = 42 ∧
    runGame dataW 42 [Action.advance] = runGame dataW 42 [Action.advance] :=
  ⟨rfl, run_determinism dataW 42 42 [Action.advance] rfl⟩

/-! ### C8 — insufficient funds is a state no-op -/

/-- The construction cost `startBuild` draws before its cash gate. -/
def drawnBuildCost (s : RunState) (g : Rng) (nId : String) : ℚ :=
  ((jsRound ((9000000 + g.stream g.pos * 9000000) * (1 + (findNbhd s nId).scarcity * 0.35)
      * (findNbhd s nId).rentIndex / 1000) : ℚ)) * 1000

/-- The renovation cost of the next level, as `renovateProperty`
computes it. -/
def renoCost (s : RunState) (prods : List ProductType) (p : Property) : ℚ :=
  clamp ((computePropertySnapshot s prods p).value * 0.03
    * (1 + (((p.renoLevel + 1 : ℕ) : ℚ) - 1) * 0.35)) 200000 5000000

/-- The replacement loan `attemptRefi` offers: valuation × target LTV. -/
def refiNewLoan (s : RunState) (prods : List ProductType) (p : Property) : ℚ :=
  max 0 ((computePropertySnapshot s prods p).value * (p.ltv.getD 0.65))

/-- The refreshed rate `attemptRefi` draws. -/
def refiNewRate (s : RunState) (g : Rng) : ℚ :=
  clamp (s.market.baseRate + s.market.spread + 0.018 + g.stream g.pos * 0.01) 0.03 0.18

/-- C8.  When the cash precondition of an operation fails, the run state
is left unchanged: `startBuild` below 25% of the drawn cost, and
`renovateProperty` at the level-3 cap or below the renovation cost,
return the state as-is; a refinance attempt whose shortfall exceeds cash
reports failure and leaves the state untouched. -/
theorem insufficient_funds_noop (data : GameData) (s : RunState) (g : Rng)
    (nId pId pid : String) (p : Property) :
    (s.cash < drawnBuildCost s g nId * 0.25 → (startBuild data s g nId pId).1 = s) ∧
    (s.properties.find? (fun q => q.id = pid) = some p → 3 ≤ p.renoLevel →
       renovateProperty data.productTypes s pid = s) ∧
    (s.properties.find? (fun q => q.id = pid) = some p →
       s.cash < renoCost s data.productTypes p →
       renovateProperty data.productTypes s pid = s) ∧
    (refiNewLoan s data.productTypes p < p.loanBalance →
       s.cash < p.loanBalance - refiNewLoan s data.productTypes p →
       (attemptRefi data.productTypes s g p).1 = false ∧
       (attemptRefi data.productTypes s g p).2.1 = s) := by
  refine ⟨?_, ?_, ?_, ?_⟩
  · intro hc
    unfold drawnBuildCost at hc
    unfold startBuild
    dsimp only [Rng.next]
    cases hz : ((findNbhd s nId).zoning.contains pId) with
    | false => rfl
    | true => rw [if_neg (by simp), if_pos hc]
  · intro hfind hlev
    unfold renovateProperty
    rw [hfind]
    dsimp only
    rw [if_pos hlev]
  · intro hfind hc
    unfold renoCost at hc
    unfold renovateProperty
    rw [hfind]
    dsimp only
    by_cases hlev : 3 ≤ p.renoLevel
    · rw [if_pos hlev]
    · rw [if_neg hlev, if_pos hc]
  · intro h1 h2
    unfold refiNewLoan at h1 h2
    unfold attemptRefi
    dsimp only [Rng.next]
    rw [if_neg (not_le.mpr h1), if_neg (not_le.mpr (by linarith))]
    exact ⟨rfl, rfl⟩

/-- C8 witness: with zero cash, the concrete build, renovation and
refinance attempts all fail and leave the state unchanged. -/
theorem insufficient_funds_noop_witness :
    sW.cash < drawnBuildCost sW gW "d" * 0.25 ∧
    (startBuild dataW sW gW "d" "office").1 = sW ∧
    sW.properties.find? (fun q => q.id = "P1") = some pW3 ∧
    sW.cash < renoCost sW dataW.productTypes pW3 ∧
    renovateProperty dataW.productTypes sW "P1" = sW ∧
    refiNewLoan sW dataW.productTypes pW3 < pW3.loanBalance ∧
    sW.cash < pW3.loanBalance - refiNewLoan sW dataW.productTypes pW3 ∧
    (attemptRefi dataW.productTypes sW gW pW3).1 = false ∧
    (attemptRefi dataW.productTypes sW gW pW3).2.1 = sW := by
  have h := insufficient_funds_noop dataW sW gW "d" "office" "P1" pW3
  have hb : sW.cash < drawnBuildCost sW gW "d" * 0.25 := by
    norm_num [sW, gW, nW, drawnBuildCost, findNbhd, jsRound]
  have hr : sW.cash < renoCost sW dataW.productTypes pW3 := by
    norm_num [sW, gW, nW, pW3, lW, prodW, dataW, mW, renoCost, computePropertySnapshot,
      findNbhd, productById, effRentIndex, effVacancy, effCapRate, computeNOI,
      computeEffectiveRentFactor, valueFromNOI, clamp, annualDebtService]
  have hn1 : refiNewLoan sW dataW.productTypes pW3 < pW3.loanBalance := by
    norm_num [sW, gW, nW, pW3, lW, prodW, dataW, mW, refiNewLoan, computePropertySnapshot,
      findNbhd, productById, effRentIndex, effVacancy, effCapRate, computeNOI,
      computeEffectiveRentFactor, valueFromNOI, clamp, annualDebtService]
  have hn2 : sW.cash < pW3.loanBalance - refiNewLoan sW dataW.productTypes pW3 := by
    norm_num [sW, gW, nW, pW3, lW, prodW, dataW, mW, refiNewLoan, computePropertySnapshot,
      findNbhd, productById, effRentIndex, effVacancy, effCapRate, computeNOI,
      computeEffectiveRentFactor, valueFromNOI, clamp, annualDebtService]
  exact ⟨hb, h.1 hb, rfl, hr, h.2.2.1 rfl hr, hn1, hn2,
         (h.2.2.2 hn1 hn2).1, (h.2.2.2 hn1 hn2).2⟩

/-! ### C2 — refinance wall: refinance or forced sale, sequentially -/

lemma find?_id_of_eq_some (l : List Property) (pid : String) (p : Property)
    (h : l.find? (fun q => q.id = pid) = some p) : p.id = pid := by
  have := List.find?_some h
  simpa using this

lemma eraseP_not_mem_map_id (pid : String) :
    ∀ (l : List Property), ((l.map (fun q => q.id)).Nodup) →
      pid ∉ (l.eraseP (fun q => q.id = pid)).map (fun q => q.id) := by
  intro l
  induction l with
  | nil => intro _; simp
  | cons q rest ih =>
    intro hnd
    rw [List.map_cons, List.nodup_cons] at hnd
    obtain ⟨hq, hrest⟩ := hnd
    by_cases hqe : q.id = pid
    · rw [List.eraseP_cons_of_pos (by simpa using hqe)]
      subst hqe
      exact hq
    · rw [List.eraseP_cons_of_neg (by simpa using hqe)]
      simp only [List.map_cons, List.mem_cons]
      rintro (h | h)
      · exact hqe h.symm
      · exact ih hrest h

/-- C2.  At a loan maturity, `maturityStep` refinances at
`new loan = valuation × target LTV`: a surplus is credited to cash and
the loan replaced; a shortfall covered by cash is deducted and the loan
replaced; otherwise the property is force-sold through the disposition
path — it leaves the property collection (ids assumed distinct) and cash
becomes `max 0 (cash + net proceeds)`, i.e. exactly 0 whenever the
proceeds leave it negative.  `handleMaturities` folds this step over the
matured properties sequentially, so earlier proceeds fund later
shortfalls. -/
theorem refi_wall_spec (prods : List ProductType) (s : RunState) (g : Rng)
    (pid : String) (p : Property)
    (hfind : s.properties.find? (fun q => q.id = pid) = some p)
    (hnd : (s.properties.map (fun q => q.id)).Nodup) :
    (p.loanBalance ≤ refiNewLoan s prods p →
       (maturityStep prods (s, g) pid).1.cash
         = s.cash + (refiNewLoan s prods p - p.loanBalance) ∧
       (maturityStep prods (s, g) pid).1.properties
         = setFirstWhere (fun q => q.id = p.id)
             (refiUpdate p (refiNewLoan s prods p) (refiNewRate s g)
               (s.year + makeMaturityYears (g.stream (g.pos + 1)))) s.properties) ∧
    (refiNewLoan s prods p < p.loanBalance →
     p.loanBalance - refiNewLoan s prods p ≤ s.cash →
       (maturityStep prods (s, g) pid).1.cash
         = s.cash - (p.loanBalance - refiNewLoan s prods p) ∧
       (maturityStep prods (s, g) pid).1.properties
         = setFirstWhere (fun q => q.id = p.id)
             (refiUpdate p (refiNewLoan s prods p) (refiNewRate s g)
               (s.year + makeMaturityYears (g.stream (g.pos + 1)))) s.properties) ∧
    (refiNewLoan s prods p < p.loanBalance →
     s.cash < p.loanBalance - refiNewLoan s prods p →
       (maturityStep prods (s, g) pid).1.cash
         = max 0 (s.cash + ((computePropertySnapshot s prods p).value
             - (computePropertySnapshot s prods p).value * 0.02 - p.loanBalance)) ∧
       (maturityStep prods (s, g) pid).1.properties
         = s.properties.eraseP (fun q => q.id = pid) ∧
       pid ∉ (maturityStep prods (s, g) pid).1.properties.map (fun q => q.id)) ∧
    (maturedOf s ≠ [] →
       handleMaturities prods s g
         = List.foldl (maturityStep prods) (s, g) ((maturedOf s).map (fun q => q.id))) := by
  have hid : p.id = pid := find?_id_of_eq_some _ _ _ hfind
  subst hid
  refine ⟨?_, ?_, ?_, ?_⟩
  · intro h1
    unfold refiNewLoan at h1
    unfold maturityStep
    dsimp only
    rw [hfind]
    unfold attemptRefi
    dsimp only [Rng.next]
    rw [if_pos h1]
    unfold refiNewLoan refiNewRate
    exact ⟨rfl, rfl⟩
  · intro h1 h2
    unfold refiNewLoan at h1 h2
    unfold maturityStep
    dsimp only
    rw [hfind]
    unfold attemptRefi
    dsimp only [Rng.next]
    rw [if_neg (not_le.mpr h1), if_pos h2]
    unfold refiNewLoan refiNewRate
    exact ⟨rfl, rfl⟩
  · intro h1 h2
    unfold refiNewLoan at h1 h2
    unfold maturityStep
    dsimp only
    rw [hfind]
    unfold attemptRefi
    dsimp only [Rng.next]
    rw [if_neg (not_le.mpr h1), if_neg (not_le.mpr (by linarith))]
    dsimp only
    unfold sellProperty
    rw [hfind]
    dsimp only
    constructor
    · by_cases hneg : s.cash + ((computePropertySnapshot s prods p).value
          - (computePropertySnapshot s prods p).value * 0.02 - p.loanBalance) < 0
      · rw [if_pos hneg]
        exact (max_eq_left hneg.le).symm
      · rw [if_neg hneg]
        exact (max_eq_right (not_lt.mp hneg)).symm
    · constructor
      · by_cases hneg : s.cash + ((computePropertySnapshot s prods p).value
            - (computePropertySnapshot s prods p).value * 0.02 - p.loanBalance) < 0
        · rw [if_pos hneg]
          rfl
        · rw [if_neg hneg]
          rfl
      · have herase := eraseP_not_mem_map_id p.id s.properties hnd
        by_cases hneg : s.cash + ((computePropertySnapshot s prods p).value
            - (computePropertySnapshot s prods p).value * 0.02 - p.loanBalance) < 0
        · rw [if_pos hneg]
          exact herase
        · rw [if_neg hneg]
          exact herase
  · intro hne
    unfold handleMaturities
    dsimp only
    rw [if_neg]
    simpa using hne

/-- C2 witness: the concrete over-levered property (valuation-implied
new loan below the balance, cash below the shortfall) is force-sold by
the maturity pass, leaves the collection, and cash is floored to 0. -/
theorem refi_wall_spec_witness :
    sW.properties.find? (fun q => q.id = "P1") = some pW3 ∧
    (sW.properties.map (fun q => q.id)).Nodup ∧
    refiNewLoan sW dataW.productTypes pW3 < pW3.loanBalance ∧
    sW.cash < pW3.loanBalance - refiNewLoan sW dataW.productTypes pW3 ∧
    ((maturityStep dataW.productTypes (sW, gW) "P1").1.cash
       = max 0 (sW.cash + ((computePropertySnapshot sW dataW.productTypes pW3).value
           - (computePropertySnapshot sW dataW.productTypes pW3).value * 0.02
           - pW3.loanBalance)) ∧
     (maturityStep dataW.productTypes (sW, gW) "P1").1.properties
       = sW.properties.eraseP (fun q => q.id = "P1") ∧
     "P1" ∉ (maturityStep dataW.productTypes (sW, gW) "P1").1.properties.map
         (fun q => q.id)) := by
  have hn1 : refiNewLoan sW dataW.productTypes pW3 < pW3.loanBalance := by
    norm_num [sW, gW, nW, pW3, lW, prodW, dataW, mW, refiNewLoan, computePropertySnapshot,
      findNbhd, productById, effRentIndex, effVacancy, effCapRate, computeNOI,
      computeEffectiveRentFactor, valueFromNOI, clamp, annualDebtService]
  have hn2 : sW.cash < pW3.loanBalance - refiNewLoan sW dataW.productTypes pW3 := by
    norm_num [sW, gW, nW, pW3, lW, prodW, dataW, mW, refiNewLoan, computePropertySnapshot,
      findNbhd, productById, effRentIndex, effVacancy, effCapRate, computeNOI,
      computeEffectiveRentFactor, valueFromNOI, clamp, annualDebtService]
  have hnd : (sW.properties.map (fun q => q.id)).Nodup := by
    simp [sW]
  exact ⟨rfl, hnd, hn1, hn2,
    (refi_wall_spec dataW.productTypes sW gW "P1" pW3 rfl hnd).2.2.1 hn1 hn2⟩

end CRE
